import Mathlib

/-
Verification of the monitoring and charting core of taskmanager.py.

Conventions of the shallow embedding:
  - Python floats are modelled as exact rationals.
  - A Python collections.deque with a maxlen is modelled as a List with an
    explicit capacity argument to each append.
  - A Python dict is modelled as an association list in insertion order;
    assignment to an existing key overwrites in place, assignment to a new
    key appends at the tail.
  - Cairo drawing calls are modelled as a list of geometric primitives in
    emission order; colors, line widths and font selection carry no
    geometric content and are omitted.  Arc angles are recorded in units of
    pi radians, so the source expression -math.pi/2 is recorded as -1/2.
-/

namespace Taskman

/-- One history buffer append: a Python deque with a maxlen appends at the
tail and evicts from the head once the capacity is exceeded (used by
init_performance_data, lines 524 to 526, and update_disk_io_stats, lines
1049 to 1056 of taskmanager.py). -/
def dequeAppend (cap : Nat) (buf : List ℚ) (v : ℚ) : List ℚ :=
  let b := buf ++ [v]
  if cap < b.length then b.drop (b.length - cap) else b

/-- A whole sequence of appends, oldest first. -/
def appendAll (cap : Nat) (buf : List ℚ) (vs : List ℚ) : List ℚ :=
  vs.foldl (dequeAppend cap) buf

/-- self.cpu_history_points = 60 (line 524). -/
def cpu_history_points : Nat := 60

/-- self.cpu_history = deque([0] * 60, maxlen=60) (line 525). -/
def cpu_history_init : List ℚ := List.replicate cpu_history_points 0

/-- self.memory_history = deque([0] * 60, maxlen=60) (line 526). -/
def memory_history_init : List ℚ := List.replicate cpu_history_points 0

/-- A fresh per device read or write history: deque([0] * 30, maxlen=30)
(lines 1050 to 1051). -/
def io_history_init : List ℚ := List.replicate 30 0

theorem dequeAppend_of_full (cap : Nat) (buf : List ℚ) (v : ℚ)
    (h : buf.length = cap) : dequeAppend cap buf v = (buf ++ [v]).drop 1 := by
  unfold dequeAppend
  simp only [List.length_append, List.length_cons, List.length_nil, h]
  rw [if_pos (by omega)]
  congr 1
  omega

theorem dequeAppend_length (cap : Nat) (buf : List ℚ) (v : ℚ)
    (h : buf.length = cap) : (dequeAppend cap buf v).length = cap := by
  rw [dequeAppend_of_full cap buf v h]
  simp [h]

theorem appendAll_of_full (cap : Nat) (vs : List ℚ) : ∀ buf : List ℚ,
    buf.length = cap → appendAll cap buf vs = (buf ++ vs).drop vs.length := by
  induction vs with
  | nil => intro buf _; simp [appendAll]
  | cons v vs ih =>
    intro buf h
    have h1 : (dequeAppend cap buf v).length = cap := dequeAppend_length cap buf v h
    have hstep : appendAll cap buf (v :: vs) = appendAll cap (dequeAppend cap buf v) vs := rfl
    rw [hstep, ih _ h1, dequeAppend_of_full cap buf v h]
    have hd : (buf ++ [v]).drop 1 ++ vs = ((buf ++ [v]) ++ vs).drop 1 :=
      (List.drop_append_of_le_length (by simp)).symm
    rw [hd, List.drop_drop]
    have ha : (buf ++ [v]) ++ vs = buf ++ v :: vs := by simp
    rw [ha, List.length_cons]
    congr 1
    omega

theorem appendAll_length (cap : Nat) (buf vs : List ℚ) (h : buf.length = cap) :
    (appendAll cap buf vs).length = cap := by
  rw [appendAll_of_full cap vs buf h]
  simp [h]

theorem appendAll_replicate_suffix (cap : Nat) (vs : List ℚ) :
    (appendAll cap (List.replicate cap (0 : ℚ)) vs).drop (cap - min vs.length cap)
      = vs.drop (vs.length - cap) := by
  rw [appendAll_of_full cap vs _ (List.length_replicate cap 0)]
  by_cases h : vs.length ≤ cap
  · have hmin : min vs.length cap = vs.length := min_eq_left h
    have hvs : vs.length - cap = 0 := by omega
    rw [hmin, hvs, List.drop_drop, List.drop_zero]
    have hsum : vs.length + (cap - vs.length) = cap := by omega
    rw [hsum, List.drop_append_eq_append_drop]
    simp [List.drop_replicate]
  · have hmin : min vs.length cap = cap := min_eq_right (by omega)
    rw [hmin, Nat.sub_self, List.drop_zero, List.drop_append_eq_append_drop]
    simp [List.drop_replicate, Nat.sub_eq_zero_of_le (show cap ≤ vs.length by omega)]

theorem appendAll_replicate_prefix (cap : Nat) (vs : List ℚ) :
    (appendAll cap (List.replicate cap (0 : ℚ)) vs).take (cap - min vs.length cap)
      = List.replicate (cap - vs.length) (0 : ℚ) := by
  rw [appendAll_of_full cap vs _ (List.length_replicate cap 0)]
  by_cases h : vs.length ≤ cap
  · have hmin : min vs.length cap = vs.length := min_eq_left h
    rw [hmin, List.drop_append_eq_append_drop, List.take_append_eq_append_take]
    simp [List.drop_replicate, List.take_replicate, Nat.sub_eq_zero_of_le h]
  · have hmin : min vs.length cap = cap := min_eq_right (by omega)
    have h0 : cap - vs.length = 0 := by omega
    rw [hmin, Nat.sub_self, h0, List.take_zero, List.replicate_zero]

/-- C9: every history buffer (CPU, memory, and each per device read or write
history) is created already holding its full capacity of zero samples, so
its length equals its capacity (60 or 30) after any number of appends,
including zero. -/
theorem C9_buffers_created_full :
    cpu_history_init = List.replicate 60 (0 : ℚ) ∧
    memory_history_init = List.replicate 60 (0 : ℚ) ∧
    io_history_init = List.replicate 30 (0 : ℚ) ∧
    (∀ vs : List ℚ, (appendAll 60 cpu_history_init vs).length = 60) ∧
    (∀ vs : List ℚ, (appendAll 60 memory_history_init vs).length = 60) ∧
    (∀ vs : List ℚ, (appendAll 30 io_history_init vs).length = 30) := by
  refine ⟨rfl, rfl, rfl, ?_, ?_, ?_⟩ <;>
    intro vs <;> apply appendAll_length <;> rfl

/-- C1 as stated is false on the code: the buffers are created pre filled
with zeros, so after zero appends the CPU history has length 60, not
min 0 60 = 0. -/
theorem C1_counterexample :
    ¬ ((appendAll 60 cpu_history_init []).length = min 0 60) := by decide

/-- C1 amended: the buffers are created pre filled with C zeros, so after N
appends the length always equals C (not min N C); the last min N C entries
are exactly the most recent min N C appended values in append order, and
when N is below C they are preceded by C minus N of the initial zeros. -/
theorem C1_amended (vs : List ℚ) :
    ((appendAll 60 cpu_history_init vs).length = 60 ∧
      (appendAll 60 cpu_history_init vs).drop (60 - min vs.length 60)
        = vs.drop (vs.length - 60) ∧
      (appendAll 60 cpu_history_init vs).take (60 - min vs.length 60)
        = List.replicate (60 - vs.length) 0) ∧
    ((appendAll 30 io_history_init vs).length = 30 ∧
      (appendAll 30 io_history_init vs).drop (30 - min vs.length 30)
        = vs.drop (vs.length - 30) ∧
      (appendAll 30 io_history_init vs).take (30 - min vs.length 30)
        = List.replicate (30 - vs.length) 0) := by
  have h60 : cpu_history_init = List.replicate 60 (0 : ℚ) := rfl
  have h30 : io_history_init = List.replicate 30 (0 : ℚ) := rfl
  rw [h60, h30]
  exact ⟨⟨appendAll_length 60 _ vs (List.length_replicate 60 0),
          appendAll_replicate_suffix 60 vs, appendAll_replicate_prefix 60 vs⟩,
        ⟨appendAll_length 30 _ vs (List.length_replicate 30 0),
          appendAll_replicate_suffix 30 vs, appendAll_replicate_prefix 30 vs⟩⟩

/-- Lookup in a Python dict modelled as an association list in insertion
order. -/
def alist_find {α : Type} (m : List (String × α)) (k : String) : Option α :=
  match m with
  | [] => none
  | (k2, v) :: rest => if k2 = k then some v else alist_find rest k

/-- Dict assignment: overwrite the value of an existing key in place,
otherwise append the new key at the tail. -/
def alist_insert {α : Type} (m : List (String × α)) (k : String) (v : α) :
    List (String × α) :=
  match m with
  | [] => [(k, v)]
  | (k2, v2) :: rest =>
    if k2 = k then (k2, v) :: rest else (k2, v2) :: alist_insert rest k v

theorem alist_find_insert_self {α : Type} (m : List (String × α)) (k : String)
    (v : α) : alist_find (alist_insert m k v) k = some v := by
  induction m with
  | nil => simp [alist_insert, alist_find]
  | cons e rest ih =>
    obtain ⟨k2, v2⟩ := e
    by_cases h : k2 = k
    · simp [alist_insert, alist_find, h]
    · simp [alist_insert, alist_find, h, ih]

theorem alist_find_insert_ne {α : Type} (m : List (String × α)) (k1 k : String)
    (v : α) (h : k1 ≠ k) :
    alist_find (alist_insert m k1 v) k = alist_find m k := by
  induction m with
  | nil => simp [alist_insert, alist_find, h]
  | cons e rest ih =>
    obtain ⟨k2, v2⟩ := e
    by_cases h2 : k2 = k1
    · subst h2
      simp [alist_insert, alist_find, h]
    · simp [alist_insert, alist_find, h2, ih]

theorem alist_find_of_mem_nodup {α : Type} (l : List (String × α))
    (d : String) (c : α) (hnd : (l.map Prod.fst).Nodup) (hmem : (d, c) ∈ l) :
    alist_find l d = some c := by
  induction l with
  | nil => cases hmem
  | cons e rest ih =>
    obtain ⟨k2, v2⟩ := e
    simp only [List.map_cons, List.nodup_cons] at hnd
    rcases List.mem_cons.mp hmem with heq | hrest
    · cases heq
      simp [alist_find]
    · have hne : k2 ≠ d := by
        intro h
        subst h
        exact hnd.1 (List.mem_map.mpr ⟨(k2, c), hrest, rfl⟩)
      simp [alist_find, hne, ih hnd.2 hrest]

/-- One parsed /proc/diskstats row for a device, as stored in the current_io
dict (update_disk_io_stats, lines 1022 to 1032): cumulative operation counts
and cumulative byte totals, bytes being sectors times the fixed 512 byte
sector size.  Rows of loop devices are never stored (line 1019). -/
structure IOCounters where
  reads : Nat
  writes : Nat
  read_bytes : Nat
  write_bytes : Nat
deriving DecidableEq, Repr

/-- Build the stored entry from raw /proc/diskstats fields (lines 1022 to
1032): reads completed, sectors read, writes completed, sectors written. -/
def mk_io_counters (reads_completed sectors_read writes_completed
    sectors_written : Nat) : IOCounters :=
  ⟨reads_completed, writes_completed, sectors_read * 512, sectors_written * 512⟩

/-- The mutable disk I/O sampling state: self.disk_io_history and
self.last_disk_io (init_disk_data, lines 530 to 533).  Each history entry is
a pair of the read history and the write history. -/
structure IOState where
  disk_io_history : List (String × (List ℚ × List ℚ))
  last_counters : List (String × IOCounters)
deriving DecidableEq

/-- Per device body of the rate loop in update_disk_io_stats (lines 1035 to
1056): a device with no previous snapshot is skipped; a negative byte delta
on either counter skips the append for both histories of that device;
otherwise both rates, converted to MB/s, are appended, creating the
prefilled histories on first use (lines 1047 to 1052). -/
def io_stats_step (interval : ℚ) (lastm : List (String × IOCounters))
    (hist : List (String × (List ℚ × List ℚ))) (dc : String × IOCounters) :
    List (String × (List ℚ × List ℚ)) :=
  match alist_find lastm dc.1 with
  | none => hist
  | some lastc =>
    let read_bytes_diff : ℤ := (dc.2.read_bytes : ℤ) - (lastc.read_bytes : ℤ)
    let write_bytes_diff : ℤ := (dc.2.write_bytes : ℤ) - (lastc.write_bytes : ℤ)
    if 0 ≤ read_bytes_diff ∧ 0 ≤ write_bytes_diff then
      let read_rate : ℚ := (read_bytes_diff : ℚ) / interval
      let write_rate : ℚ := (write_bytes_diff : ℚ) / interval
      let h := (alist_find hist dc.1).getD (io_history_init, io_history_init)
      alist_insert hist dc.1
        (dequeAppend 30 h.1 (read_rate / (1024 * 1024)),
         dequeAppend 30 h.2 (write_rate / (1024 * 1024)))
    else hist

/-- update_disk_io_stats (lines 1007 to 1061): fold the rate computation
over every device of the freshly parsed snapshot, then replace the stored
snapshot map wholesale with the current one (line 1058), whether or not any
rate was appended. -/
def update_disk_io_stats (interval : ℚ) (st : IOState)
    (cur : List (String × IOCounters)) : IOState :=
  { disk_io_history :=
      cur.foldl (io_stats_step interval st.last_counters) st.disk_io_history,
    last_counters := cur }

theorem io_stats_step_append (interval : ℚ)
    (lastm : List (String × IOCounters))
    (hist : List (String × (List ℚ × List ℚ))) (d : String)
    (c lastc : IOCounters) (hr hw : List ℚ)
    (hl : alist_find lastm d = some lastc)
    (hh : alist_find hist d = some (hr, hw))
    (hnr : 0 ≤ (c.read_bytes : ℤ) - (lastc.read_bytes : ℤ))
    (hnw : 0 ≤ (c.write_bytes : ℤ) - (lastc.write_bytes : ℤ)) :
    io_stats_step interval lastm hist (d, c) = alist_insert hist d
      (dequeAppend 30 hr
        ((((c.read_bytes : ℤ) - (lastc.read_bytes : ℤ) : ℤ) : ℚ) / interval
          / (1024 * 1024)),
       dequeAppend 30 hw
        ((((c.write_bytes : ℤ) - (lastc.write_bytes : ℤ) : ℤ) : ℚ) / interval
          / (1024 * 1024))) := by
  unfold io_stats_step
  rw [hl]
  simp [hh, hnr, hnw]

theorem io_stats_step_skip (interval : ℚ)
    (lastm : List (String × IOCounters))
    (hist : List (String × (List ℚ × List ℚ))) (d : String)
    (c lastc : IOCounters)
    (hl : alist_find lastm d = some lastc)
    (hroll : (c.read_bytes : ℤ) - (lastc.read_bytes : ℤ) < 0 ∨
             (c.write_bytes : ℤ) - (lastc.write_bytes : ℤ) < 0) :
    io_stats_step interval lastm hist (d, c) = hist := by
  unfold io_stats_step
  rw [hl]
  have hcond : ¬ (0 ≤ (c.read_bytes : ℤ) - (lastc.read_bytes : ℤ) ∧
      0 ≤ (c.write_bytes : ℤ) - (lastc.write_bytes : ℤ)) := by
    rcases hroll with h | h
    · exact fun hc => absurd hc.1 (not_le.mpr h)
    · exact fun hc => absurd hc.2 (not_le.mpr h)
  dsimp only
  split
  · rename_i hc
    exact absurd hc hcond
  · rfl

theorem io_stats_step_find_ne (interval : ℚ)
    (lastm : List (String × IOCounters))
    (hist : List (String × (List ℚ × List ℚ)))
    (e : String × IOCounters) (d : String) (h : e.1 ≠ d) :
    alist_find (io_stats_step interval lastm hist e) d = alist_find hist d := by
  unfold io_stats_step
  cases alist_find lastm e.1 with
  | none => rfl
  | some lastc =>
    dsimp only
    split
    · exact alist_find_insert_ne _ _ _ _ h
    · rfl

theorem io_fold_find_rollback (interval : ℚ)
    (lastm : List (String × IOCounters)) (d : String) (lastc : IOCounters)
    (hlast : alist_find lastm d = some lastc) :
    ∀ (l : List (String × IOCounters)),
    (∀ c2, (d, c2) ∈ l → (c2.read_bytes : ℤ) - (lastc.read_bytes : ℤ) < 0 ∨
        (c2.write_bytes : ℤ) - (lastc.write_bytes : ℤ) < 0) →
    ∀ hist, alist_find (l.foldl (io_stats_step interval lastm) hist) d
      = alist_find hist d := by
  intro l
  induction l with
  | nil => intro _ hist; rfl
  | cons e rest ih =>
    intro hall hist
    obtain ⟨k2, c2⟩ := e
    have hfold : ((k2, c2) :: rest).foldl (io_stats_step interval lastm) hist
        = rest.foldl (io_stats_step interval lastm)
            (io_stats_step interval lastm hist (k2, c2)) := rfl
    rw [hfold, ih (fun c3 h3 => hall c3 (List.mem_cons_of_mem _ h3))]
    by_cases hk : k2 = d
    · subst hk
      rw [io_stats_step_skip interval lastm hist k2 c2 lastc hlast
        (hall c2 (List.mem_cons_self _ _))]
    · exact io_stats_step_find_ne interval lastm hist (k2, c2) d hk

theorem dequeAppend_getLast (cap : Nat) (buf : List ℚ) (v : ℚ)
    (h : buf.length = cap) (hc : 1 ≤ cap) :
    (dequeAppend cap buf v).getLast? = some v := by
  rw [dequeAppend_of_full cap buf v h,
    List.drop_append_of_le_length (by omega), List.getLast?_concat]

/-- C2 as stated is false on the code: the value appended to the history is
the byte rate divided further by 1024 * 1024 (stored in MB/s, lines 1054 to
1056), not (r1 - r0) * 512 / interval.  With r0 = 0 and r1 = 4096 sectors
over a 2 second interval, the appended value is 1, not 1048576. -/
theorem C2_counterexample :
    ((alist_find (update_disk_io_stats 2
        ⟨[("sda", (io_history_init, io_history_init))],
          [("sda", mk_io_counters 0 0 0 0)]⟩
        [("sda", mk_io_counters 0 4096 0 0)]).disk_io_history "sda").map
          (fun p => p.1.getLast?)) = some (some 1) ∧
      (1 : ℚ) ≠ ((4096 : ℚ) - 0) * 512 / 2 := by
  constructor
  · have hone : (update_disk_io_stats 2
        ⟨[("sda", (io_history_init, io_history_init))],
          [("sda", mk_io_counters 0 0 0 0)]⟩
        [("sda", mk_io_counters 0 4096 0 0)]).disk_io_history
        = io_stats_step 2 [("sda", mk_io_counters 0 0 0 0)]
            [("sda", (io_history_init, io_history_init))]
            ("sda", mk_io_counters 0 4096 0 0) := rfl
    rw [hone, io_stats_step_append 2 _ _ "sda" _ (mk_io_counters 0 0 0 0)
        io_history_init io_history_init (by decide) (by decide)
        (by decide) (by decide),
      alist_find_insert_self, Option.map_some']
    have hlast : (dequeAppend 30 io_history_init
        (((((mk_io_counters 0 4096 0 0).read_bytes : ℤ)
          - ((mk_io_counters 0 0 0 0).read_bytes : ℤ) : ℤ) : ℚ) / 2
          / (1024 * 1024))).getLast? = some
        (((((mk_io_counters 0 4096 0 0).read_bytes : ℤ)
          - ((mk_io_counters 0 0 0 0).read_bytes : ℤ) : ℤ) : ℚ) / 2
          / (1024 * 1024)) :=
      dequeAppend_getLast 30 io_history_init _ (by decide) (by omega)
    rw [hlast]
    norm_num [mk_io_counters]
  · norm_num

/-- C2 amended: for a device with a previous snapshot, if both byte deltas
are nonnegative, the appended rates are the byte rates converted to MB/s:
(r1 - r0) * 512 / interval / (1024 * 1024) for reads and
(w1 - w0) * 512 / interval / (1024 * 1024) for writes; if either delta is
negative, nothing is appended to either history of that device. -/
theorem C2_amended (interval : ℚ) (d : String) (st : IOState)
    (rc0 r0 wc0 w0 rc1 r1 wc1 w1 : Nat) (hr hw : List ℚ)
    (hlast : alist_find st.last_counters d = some (mk_io_counters rc0 r0 wc0 w0))
    (hhist : alist_find st.disk_io_history d = some (hr, hw))
    (hmr : r0 ≤ r1) (hmw : w0 ≤ w1)
    (d2 : String) (st2 : IOState)
    (sc0 s0 tc0 t0 sc1 s1 tc1 t1 : Nat) (hr2 hw2 : List ℚ)
    (hlast2 : alist_find st2.last_counters d2 = some (mk_io_counters sc0 s0 tc0 t0))
    (hhist2 : alist_find st2.disk_io_history d2 = some (hr2, hw2))
    (hroll : s1 < s0 ∨ t1 < t0) :
    alist_find (update_disk_io_stats interval st
        [(d, mk_io_counters rc1 r1 wc1 w1)]).disk_io_history d
      = some (dequeAppend 30 hr
                ((((r1 : ℚ) - (r0 : ℚ)) * 512 / interval) / (1024 * 1024)),
              dequeAppend 30 hw
                ((((w1 : ℚ) - (w0 : ℚ)) * 512 / interval) / (1024 * 1024))) ∧
    alist_find (update_disk_io_stats interval st2
        [(d2, mk_io_counters sc1 s1 tc1 t1)]).disk_io_history d2
      = some (hr2, hw2) := by
  constructor
  · have hone : (update_disk_io_stats interval st
        [(d, mk_io_counters rc1 r1 wc1 w1)]).disk_io_history
        = io_stats_step interval st.last_counters st.disk_io_history
            (d, mk_io_counters rc1 r1 wc1 w1) := rfl
    rw [hone, io_stats_step_append interval st.last_counters st.disk_io_history
      d _ _ hr hw hlast hhist
      (by simp only [mk_io_counters]; push_cast; nlinarith)
      (by simp only [mk_io_counters]; push_cast; nlinarith)]
    rw [alist_find_insert_self]
    have hrv : ((((mk_io_counters rc1 r1 wc1 w1).read_bytes : ℤ)
        - ((mk_io_counters rc0 r0 wc0 w0).read_bytes : ℤ) : ℤ) : ℚ)
        = ((r1 : ℚ) - (r0 : ℚ)) * 512 := by
      simp only [mk_io_counters]
      push_cast
      ring
    have hwv : ((((mk_io_counters rc1 r1 wc1 w1).write_bytes : ℤ)
        - ((mk_io_counters rc0 r0 wc0 w0).write_bytes : ℤ) : ℤ) : ℚ)
        = ((w1 : ℚ) - (w0 : ℚ)) * 512 := by
      simp only [mk_io_counters]
      push_cast
      ring
    rw [hrv, hwv]
  · have hone : (update_disk_io_stats interval st2
        [(d2, mk_io_counters sc1 s1 tc1 t1)]).disk_io_history
        = io_stats_step interval st2.last_counters st2.disk_io_history
            (d2, mk_io_counters sc1 s1 tc1 t1) := rfl
    rw [hone, io_stats_step_skip interval st2.last_counters st2.disk_io_history
      d2 _ _ hlast2 ?_, hhist2]
    rcases hroll with h | h
    · left
      simp only [mk_io_counters]
      push_cast
      nlinarith
    · right
      simp only [mk_io_counters]
      push_cast
      nlinarith

theorem C2_witness :
    alist_find ([("sda", mk_io_counters 0 0 0 0)] :
        List (String × IOCounters)) "sda" = some (mk_io_counters 0 0 0 0) ∧
    alist_find ([("sda", (io_history_init, io_history_init))] :
        List (String × (List ℚ × List ℚ))) "sda"
      = some (io_history_init, io_history_init) ∧
    (0 : Nat) ≤ 4096 ∧ (0 : Nat) ≤ 0 ∧
    alist_find ([("sdb", mk_io_counters 9 9 9 9)] :
        List (String × IOCounters)) "sdb" = some (mk_io_counters 9 9 9 9) ∧
    alist_find ([("sdb", (io_history_init, io_history_init))] :
        List (String × (List ℚ × List ℚ))) "sdb"
      = some (io_history_init, io_history_init) ∧
    ((2 : Nat) < 9 ∨ (2 : Nat) < 9) ∧
    (alist_find (update_disk_io_stats 2
        ⟨[("sda", (io_history_init, io_history_init))],
          [("sda", mk_io_counters 0 0 0 0)]⟩
        [("sda", mk_io_counters 7 4096 0 0)]).disk_io_history "sda"
      = some (dequeAppend 30 io_history_init
                (((((4096 : Nat) : ℚ) - ((0 : Nat) : ℚ)) * 512 / 2)
                  / (1024 * 1024)),
              dequeAppend 30 io_history_init
                (((((0 : Nat) : ℚ) - ((0 : Nat) : ℚ)) * 512 / 2)
                  / (1024 * 1024))) ∧
    alist_find (update_disk_io_stats 2
        ⟨[("sdb", (io_history_init, io_history_init))],
          [("sdb", mk_io_counters 9 9 9 9)]⟩
        [("sdb", mk_io_counters 2 2 2 2)]).disk_io_history "sdb"
      = some (io_history_init, io_history_init)) :=
  ⟨by decide, by decide, by decide, by decide, by decide, by decide,
    by decide,
    C2_amended 2 "sda"
      ⟨[("sda", (io_history_init, io_history_init))],
        [("sda", mk_io_counters 0 0 0 0)]⟩
      0 0 0 0 7 4096 0 0 io_history_init io_history_init
      (by decide) (by decide) (by decide) (by decide)
      "sdb"
      ⟨[("sdb", (io_history_init, io_history_init))],
        [("sdb", mk_io_counters 9 9 9 9)]⟩
      9 9 9 9 2 2 2 2 io_history_init io_history_init
      (by decide) (by decide) (Or.inl (by decide))⟩

/-- C10: on a rollback interval for a device, the histories of that device
are left unchanged, but the stored snapshot map is replaced wholesale with
the current snapshot, so the next deltas are computed against the post reset
counters. -/
theorem C10_rollback_replaces_snapshot (interval : ℚ) (st : IOState)
    (cur : List (String × IOCounters)) (d : String) (c lastc : IOCounters)
    (hnd : (cur.map Prod.fst).Nodup)
    (hmem : (d, c) ∈ cur)
    (hlast : alist_find st.last_counters d = some lastc)
    (hroll : (c.read_bytes : ℤ) - (lastc.read_bytes : ℤ) < 0 ∨
             (c.write_bytes : ℤ) - (lastc.write_bytes : ℤ) < 0) :
    alist_find (update_disk_io_stats interval st cur).disk_io_history d
      = alist_find st.disk_io_history d ∧
    (update_disk_io_stats interval st cur).last_counters = cur ∧
    alist_find (update_disk_io_stats interval st cur).last_counters d
      = some c := by
  have hall : ∀ c2, (d, c2) ∈ cur →
      (c2.read_bytes : ℤ) - (lastc.read_bytes : ℤ) < 0 ∨
      (c2.write_bytes : ℤ) - (lastc.write_bytes : ℤ) < 0 := by
    intro c2 h2
    have h2c : alist_find cur d = some c2 := alist_find_of_mem_nodup cur d c2 hnd h2
    have hcc : alist_find cur d = some c := alist_find_of_mem_nodup cur d c hnd hmem
    rw [hcc] at h2c
    cases Option.some.inj h2c
    exact hroll
  refine ⟨?_, rfl, ?_⟩
  · exact io_fold_find_rollback interval st.last_counters d lastc hlast cur hall
      st.disk_io_history
  · exact alist_find_of_mem_nodup cur d c hnd hmem

theorem C10_witness :
    (([("sdc", mk_io_counters 1 1 1 1)] :
        List (String × IOCounters)).map Prod.fst).Nodup ∧
    ("sdc", mk_io_counters 1 1 1 1) ∈
      ([("sdc", mk_io_counters 1 1 1 1)] : List (String × IOCounters)) ∧
    alist_find ([("sdc", mk_io_counters 5 5 5 5)] :
        List (String × IOCounters)) "sdc" = some (mk_io_counters 5 5 5 5) ∧
    (((mk_io_counters 1 1 1 1).read_bytes : ℤ)
        - ((mk_io_counters 5 5 5 5).read_bytes : ℤ) < 0 ∨
      ((mk_io_counters 1 1 1 1).write_bytes : ℤ)
        - ((mk_io_counters 5 5 5 5).write_bytes : ℤ) < 0) ∧
    (alist_find (update_disk_io_stats 2
        ⟨[("sdc", (io_history_init, io_history_init))],
          [("sdc", mk_io_counters 5 5 5 5)]⟩
        [("sdc", mk_io_counters 1 1 1 1)]).disk_io_history "sdc"
      = alist_find ([("sdc", (io_history_init, io_history_init))] :
          List (String × (List ℚ × List ℚ))) "sdc" ∧
    (update_disk_io_stats 2
        ⟨[("sdc", (io_history_init, io_history_init))],
          [("sdc", mk_io_counters 5 5 5 5)]⟩
        [("sdc", mk_io_counters 1 1 1 1)]).last_counters
      = [("sdc", mk_io_counters 1 1 1 1)] ∧
    alist_find (update_disk_io_stats 2
        ⟨[("sdc", (io_history_init, io_history_init))],
          [("sdc", mk_io_counters 5 5 5 5)]⟩
        [("sdc", mk_io_counters 1 1 1 1)]).last_counters "sdc"
      = some (mk_io_counters 1 1 1 1)) :=
  ⟨by decide, by decide, by decide, Or.inl (by decide),
    C10_rollback_replaces_snapshot 2
      ⟨[("sdc", (io_history_init, io_history_init))],
        [("sdc", mk_io_counters 5 5 5 5)]⟩
      [("sdc", mk_io_counters 1 1 1 1)] "sdc"
      (mk_io_counters 1 1 1 1) (mk_io_counters 5 5 5 5)
      (by decide) (by decide) (by decide) (Or.inl (by decide))⟩

/-- device.replace("/dev/", "") at the character level (update_disk_details
line 1090 and on_disk_io_chart_draw line 1223): every occurrence of the five
character marker is removed, scanning left to right. -/
def strip_dev_marker : List Char → List Char
  | '/' :: 'd' :: 'e' :: 'v' :: '/' :: rest => strip_dev_marker rest
  | c :: cs => c :: strip_dev_marker cs
  | [] => []

/-- The device name used for I/O lookups: the raw device with "/dev/"
removed (line 1090). -/
def device_short_name (device : String) : String :=
  String.mk (strip_dev_marker device.toList)

/-- The base device heuristic (lines 1098 and 1231): every digit character
of the name is dropped, wherever it occurs. -/
def base_device (name : String) : String :=
  String.mk (name.toList.filter (fun c => !c.isDigit))

/-- The shared lookup logic of update_disk_details (lines 1092 to 1100) and
on_disk_io_chart_draw (lines 1226 to 1233): try the exact short name first,
then the digit stripped base device; none when neither has a history. -/
def find_io_device (hist : List (String × (List ℚ × List ℚ)))
    (device : String) : Option String :=
  let device_name := device_short_name device
  if (alist_find hist device_name).isSome then some device_name
  else
    let base := base_device device_name
    if (alist_find hist base).isSome then some base
    else none

/-- The read and write speed readout of update_disk_details (lines 1102 to
1109): the most recent sample of each history when a matching device with a
nonempty read history exists, otherwise none (the labels then fall back to
the 0.00 MB/s placeholder).  The write history is read unconditionally in
the source; it is always nonempty because both histories are created
together, so its last sample is taken with a default. -/
def disk_io_label_rates (hist : List (String × (List ℚ × List ℚ)))
    (device : String) : Option (ℚ × ℚ) :=
  match find_io_device hist device with
  | none => none
  | some dev =>
    match alist_find hist dev with
    | none => none
    | some pair =>
      match pair.1.getLast? with
      | none => none
      | some r => some (r, pair.2.getLast?.getD 0)

/-- Modelled from the spec: the reduction the claim describes, stripping
only the trailing run of digit characters after removing the path marker. -/
def strip_trailing_digits (s : String) : String :=
  String.mk ((s.toList.reverse.dropWhile Char.isDigit).reverse)

/-- C3 as stated is false on the code: the lookup key drops every digit
character, not only the trailing run.  For /dev/nvme0n1p2 the claim's rule
yields nvme0n1p, but the code reduces the name to nvmenp, so a history
stored under nvme0n1p is not found and the display falls back to the no
data placeholder. -/
theorem C3_counterexample :
    strip_trailing_digits (device_short_name "/dev/nvme0n1p2") = "nvme0n1p" ∧
    base_device (device_short_name "/dev/nvme0n1p2") = "nvmenp" ∧
    find_io_device [("nvme0n1p", (io_history_init, io_history_init))]
      "/dev/nvme0n1p2" = none ∧
    disk_io_label_rates [("nvme0n1p", (io_history_init, io_history_init))]
      "/dev/nvme0n1p2" = none := by
  refine ⟨by decide, by decide, by decide, by decide⟩

/-- C3 amended: the lookup key used when the exact name has no history is
obtained by removing "/dev/" and then every digit character of the name (not
only the trailing run), so sda1 and /dev/sda1 both reduce to sda while
nvme0n1p2 reduces to nvmenp; when neither the exact nor the reduced name has
history, the lookup yields none and the display falls back to the no data
placeholder. -/
theorem C3_amended (hist : List (String × (List ℚ × List ℚ)))
    (device : String)
    (hex : alist_find hist (device_short_name device) = none)
    (hbase : alist_find hist (base_device (device_short_name device)) = none)
    (hist2 : List (String × (List ℚ × List ℚ))) (device2 : String)
    (hex2 : alist_find hist2 (device_short_name device2) = none)
    (hbase2 : (alist_find hist2
      (base_device (device_short_name device2))).isSome) :
    base_device "sda1" = "sda" ∧
    device_short_name "/dev/sda1" = "sda1" ∧
    base_device (device_short_name "/dev/sda1") = "sda" ∧
    base_device "nvme0n1p2" = "nvmenp" ∧
    find_io_device hist device = none ∧
    disk_io_label_rates hist device = none ∧
    find_io_device hist2 device2
      = some (base_device (device_short_name device2)) := by
  refine ⟨by decide, by decide, by decide, by decide, ?_, ?_, ?_⟩
  · simp [find_io_device, hex, hbase]
  · have hfind : find_io_device hist device = none := by
      simp [find_io_device, hex, hbase]
    simp [disk_io_label_rates, hfind]
  · simp [find_io_device, hex2, hbase2]

theorem C3_witness :
    alist_find ([] : List (String × (List ℚ × List ℚ)))
      (device_short_name "sdz") = none ∧
    alist_find ([] : List (String × (List ℚ × List ℚ)))
      (base_device (device_short_name "sdz")) = none ∧
    alist_find ([("sda", (io_history_init, io_history_init))] :
        List (String × (List ℚ × List ℚ)))
      (device_short_name "/dev/sda1") = none ∧
    (alist_find ([("sda", (io_history_init, io_history_init))] :
        List (String × (List ℚ × List ℚ)))
      (base_device (device_short_name "/dev/sda1"))).isSome ∧
    (base_device "sda1" = "sda" ∧
      device_short_name "/dev/sda1" = "sda1" ∧
      base_device (device_short_name "/dev/sda1") = "sda" ∧
      base_device "nvme0n1p2" = "nvmenp" ∧
      find_io_device ([] : List (String × (List ℚ × List ℚ))) "sdz" = none ∧
      disk_io_label_rates ([] : List (String × (List ℚ × List ℚ))) "sdz"
        = none ∧
      find_io_device [("sda", (io_history_init, io_history_init))] "/dev/sda1"
        = some (base_device (device_short_name "/dev/sda1"))) :=
  ⟨by decide, by decide, by decide, by decide,
    C3_amended [] "sdz" (by decide) (by decide)
      [("sda", (io_history_init, io_history_init))] "/dev/sda1"
      (by decide) (by decide)⟩

/-- The CPU and memory sample histories touched by update_performance_data.
The refresh paths of the other tabs (processes, users, disks) never append
to these two histories, so they are the whole relevant state for C4. -/
structure PerfState where
  cpu_history : List ℚ
  memory_history : List ℚ
deriving DecidableEq

/-- The point in time readings consumed by one call of
update_performance_data: the interval averaged CPU percentage (line 591)
and the virtual memory percentage (line 596). -/
structure PerfMetrics where
  cpu : ℚ
  mem : ℚ
deriving DecidableEq

/-- update_performance_data (lines 577 to 611), restricted to its history
effects: append one CPU sample (line 592) and one memory sample (line 597)
to the two capacity 60 buffers. -/
def update_performance_data (m : PerfMetrics) (st : PerfState) : PerfState :=
  { cpu_history := dequeAppend 60 st.cpu_history m.cpu,
    memory_history := dequeAppend 60 st.memory_history m.mem }

/-- update_all_data (lines 558 to 575): dispatch one refresh for the
visible tab (update_performance_data when the Performance tab, page 0, is
current; pages 1 to 3 refresh processes, users and disks, which leave these
histories unchanged), then call update_performance_data once more
unconditionally (line 573).  m1 is the sample pair read by the page 0
dispatch call, m2 the pair read by the unconditional call. -/
def update_all_data (current_page : Nat) (m1 m2 : PerfMetrics)
    (st : PerfState) : PerfState :=
  let st1 := if current_page = 0 then update_performance_data m1 st else st
  update_performance_data m2 st1

/-- The state right after init_performance_data. -/
def perf_state_init : PerfState := ⟨cpu_history_init, memory_history_init⟩

/-- C4 as stated is false on the code: with the Performance tab visible
(page 0), one timer tick appends two CPU samples, not one, because
update_performance_data runs both in the page dispatch and in the
unconditional call of line 573. -/
theorem C4_counterexample :
    (update_all_data 0 ⟨7, 5⟩ ⟨7, 5⟩ perf_state_init).cpu_history
      ≠ dequeAppend 60 perf_state_init.cpu_history 7 := by decide

/-- C4 amended: one tick appends exactly one CPU and one memory sample when
any tab other than Performance is visible, but exactly two of each when the
Performance tab (page 0) is visible, since the dispatch branch and the
unconditional call both sample. -/
theorem C4_amended (page : Nat) (m1 m2 : PerfMetrics) (st : PerfState)
    (hc : st.cpu_history.length = 60) (hm : st.memory_history.length = 60) :
    (page = 0 →
      (update_all_data page m1 m2 st).cpu_history
          = dequeAppend 60 (dequeAppend 60 st.cpu_history m1.cpu) m2.cpu ∧
        (update_all_data page m1 m2 st).cpu_history.drop 58
          = [m1.cpu, m2.cpu] ∧
        (update_all_data page m1 m2 st).memory_history
          = dequeAppend 60 (dequeAppend 60 st.memory_history m1.mem) m2.mem ∧
        (update_all_data page m1 m2 st).memory_history.drop 58
          = [m1.mem, m2.mem]) ∧
    (page ≠ 0 →
      (update_all_data page m1 m2 st).cpu_history
          = dequeAppend 60 st.cpu_history m2.cpu ∧
        (update_all_data page m1 m2 st).cpu_history.drop 59 = [m2.cpu] ∧
        (update_all_data page m1 m2 st).memory_history
          = dequeAppend 60 st.memory_history m2.mem ∧
        (update_all_data page m1 m2 st).memory_history.drop 59
          = [m2.mem]) := by
  have htwo : ∀ (buf : List ℚ) (a b : ℚ), buf.length = 60 →
      (dequeAppend 60 (dequeAppend 60 buf a) b).drop 58 = [a, b] := by
    intro buf a b hb
    have h1 : dequeAppend 60 (dequeAppend 60 buf a) b
        = appendAll 60 buf [a, b] := rfl
    rw [h1, appendAll_of_full 60 [a, b] buf hb, List.drop_drop]
    have h2 : [a, b].length + 58 = buf.length := by simp [hb]
    rw [h2, List.drop_left]
  have hone : ∀ (buf : List ℚ) (b : ℚ), buf.length = 60 →
      (dequeAppend 60 buf b).drop 59 = [b] := by
    intro buf b hb
    have h1 : dequeAppend 60 buf b = appendAll 60 buf [b] := rfl
    rw [h1, appendAll_of_full 60 [b] buf hb, List.drop_drop]
    have h2 : [b].length + 59 = buf.length := by simp [hb]
    rw [h2, List.drop_left]
  constructor
  · intro hp
    subst hp
    have hcpu : (update_all_data 0 m1 m2 st).cpu_history
        = dequeAppend 60 (dequeAppend 60 st.cpu_history m1.cpu) m2.cpu := rfl
    have hmem : (update_all_data 0 m1 m2 st).memory_history
        = dequeAppend 60 (dequeAppend 60 st.memory_history m1.mem) m2.mem := rfl
    exact ⟨hcpu, by rw [hcpu]; exact htwo _ _ _ hc,
           hmem, by rw [hmem]; exact htwo _ _ _ hm⟩
  · intro hp
    have hst : update_all_data page m1 m2 st = update_performance_data m2 st := by
      unfold update_all_data
      rw [if_neg hp]
    rw [hst]
    exact ⟨rfl, hone _ _ hc, rfl, hone _ _ hm⟩

theorem C4_witness :
    perf_state_init.cpu_history.length = 60 ∧
    perf_state_init.memory_history.length = 60 ∧
    (((0 : Nat) = 0 →
      (update_all_data 0 ⟨7, 5⟩ ⟨3, 4⟩ perf_state_init).cpu_history
          = dequeAppend 60 (dequeAppend 60 perf_state_init.cpu_history 7) 3 ∧
        (update_all_data 0 ⟨7, 5⟩ ⟨3, 4⟩ perf_state_init).cpu_history.drop 58
          = [7, 3] ∧
        (update_all_data 0 ⟨7, 5⟩ ⟨3, 4⟩ perf_state_init).memory_history
          = dequeAppend 60 (dequeAppend 60 perf_state_init.memory_history 5) 4 ∧
        (update_all_data 0 ⟨7, 5⟩ ⟨3, 4⟩ perf_state_init).memory_history.drop 58
          = [5, 4]) ∧
      ((0 : Nat) ≠ 0 →
        (update_all_data 0 ⟨7, 5⟩ ⟨3, 4⟩ perf_state_init).cpu_history
            = dequeAppend 60 perf_state_init.cpu_history 3 ∧
          (update_all_data 0 ⟨7, 5⟩ ⟨3, 4⟩ perf_state_init).cpu_history.drop 59
            = [3] ∧
          (update_all_data 0 ⟨7, 5⟩ ⟨3, 4⟩ perf_state_init).memory_history
            = dequeAppend 60 perf_state_init.memory_history 4 ∧
          (update_all_data 0 ⟨7, 5⟩ ⟨3, 4⟩ perf_state_init).memory_history.drop 59
            = [4])) :=
  ⟨by decide, by decide,
    C4_amended 0 ⟨7, 5⟩ ⟨3, 4⟩ perf_state_init (by decide) (by decide)⟩

/-- A drawing primitive emitted by a chart draw handler, in emission order.
Colors, line widths and font faces carry no geometric content and are
omitted.  Arc angles are recorded in units of pi radians, so the source
expression -math.pi/2 is recorded as -1/2.  textNum is a text op whose
label embeds one formatted number, carried symbolically. -/
inductive DrawOp where
  | fillRect (x y w h : ℚ)
  | strokeRect (x y w h : ℚ)
  | segment (x1 y1 x2 y2 : ℚ)
  | polyline (pts : List (ℚ × ℚ))
  | fillPath (pts : List (ℚ × ℚ))
  | fillArc (cx cy r a1 a2 : ℚ)
  | strokeArc (cx cy r a1 a2 : ℚ)
  | text (x y : ℚ) (s : String)
  | textNum (x y : ℚ) (s : String) (v : ℚ)
deriving DecidableEq

/-- Python int() on a float: truncation toward zero. -/
def py_int (q : ℚ) : ℚ :=
  if q < 0 then -((⌊-q⌋ : ℤ) : ℚ) else ((⌊q⌋ : ℤ) : ℚ)

/-- max(l) if l else 1, as used to build the I/O chart scale (lines 1258 to
1261). -/
def py_list_max : List ℚ → ℚ
  | [] => 1
  | x :: xs => xs.foldl max x

/-- The I/O chart scale: the maximum over both histories, floored at 1
(lines 1258 to 1262). -/
def io_scale_max (read write : List ℚ) : ℚ :=
  max (max (py_list_max read) (py_list_max write)) 1

/-- The polyline vertex list of the disk I/O chart (lines 1265 to 1292):
for sample index i, x = i * (width / max 1 (N - 1)) and
y = height - value / maxval * height * 0.9, in history order. -/
def polyline_points (w h : ℤ) (hist : List ℚ) (maxval : ℚ) : List (ℚ × ℚ) :=
  (List.range hist.length).map fun (i : ℕ) =>
    ((i : ℚ) * ((w : ℚ) / ((max 1 (hist.length - 1) : ℕ) : ℚ)),
     (h : ℚ) - hist.getD i 0 / maxval * (h : ℚ) * (9 / 10))

/-- The fixed slot spacing of the CPU chart: width divided by
max 1 (cpu_history_points - 1) (line 675). -/
def cpu_point_spacing (w : ℤ) : ℚ :=
  (w : ℚ) / ((max 1 (cpu_history_points - 1) : ℕ) : ℚ)

/-- The vertex list of one CPU chart series (lines 680 to 683 and 691 to
697): the y scale is fixed at 100. -/
def cpu_series_points (w h : ℤ) (hist : List ℚ) : List (ℚ × ℚ) :=
  (List.range hist.length).map fun (i : ℕ) =>
    ((i : ℚ) * cpu_point_spacing w,
     (h : ℚ) - hist.getD i 0 / 100 * (h : ℚ) * (9 / 10))

/-- Horizontal grid lines of both time series charts (lines 651 to 655 and
1251 to 1255): y = int(height * i / 4) for i in range(5). -/
def hgrid_ops (w h : ℤ) : List DrawOp :=
  (List.range 5).map fun (i : ℕ) =>
    DrawOp.segment 0 (py_int ((h : ℚ) * (i : ℚ) / 4)) (w : ℚ)
      (py_int ((h : ℚ) * (i : ℚ) / 4))

/-- Vertical grid lines of the CPU chart, one every 10 sample slots
(range(0, 61, 10), lines 658 to 662). -/
def cpu_vgrid_ops (w h : ℤ) : List DrawOp :=
  ([0, 10, 20, 30, 40, 50, 60] : List ℕ).map fun i =>
    DrawOp.segment (py_int ((w : ℚ) * (i : ℚ) / 60)) 0
      (py_int ((w : ℚ) * (i : ℚ) / 60)) (h : ℚ)

/-- The axes of the CPU chart (lines 664 to 671). -/
def cpu_axes_ops (w h : ℤ) : List DrawOp :=
  [DrawOp.segment 0 ((h : ℚ) - 1) (w : ℚ) ((h : ℚ) - 1),
   DrawOp.segment 1 0 1 (h : ℚ)]

/-- The CPU chart legend (lines 712 to 727). -/
def cpu_legend_ops : List DrawOp :=
  [DrawOp.fillRect 10 10 15 10, DrawOp.text 30 20 "CPU",
   DrawOp.fillRect 80 10 15 10, DrawOp.text 100 20 "Memory"]

/-- The I/O chart legend (lines 1294 to 1309). -/
def io_legend_ops : List DrawOp :=
  [DrawOp.fillRect 10 10 15 10, DrawOp.text 30 19 "Read",
   DrawOp.fillRect 80 10 15 10, DrawOp.text 100 19 "Write"]

/-- The chart border (lines 729 to 733 and 1311 to 1315). -/
def border_ops (w h : ℤ) : List DrawOp :=
  [DrawOp.strokeRect (1/2) (1/2) ((w : ℚ) - 1) ((h : ℚ) - 1)]

/-- on_cpu_chart_draw (lines 632 to 735): nothing at nonpositive
dimensions; otherwise background, grid, axes, then the filled CPU area and
the CPU and memory polylines only when the CPU history has more than one
point, then legend and border. -/
def on_cpu_chart_draw (cpu_hist mem_hist : List ℚ) (w h : ℤ) : List DrawOp :=
  if w ≤ 0 ∨ h ≤ 0 then []
  else
    [DrawOp.fillRect 0 0 (w : ℚ) (h : ℚ)]
    ++ hgrid_ops w h ++ cpu_vgrid_ops w h ++ cpu_axes_ops w h
    ++ (if 1 < cpu_hist.length then
          [DrawOp.fillPath (((0 : ℚ), (h : ℚ)) :: cpu_series_points w h cpu_hist
              ++ [((w : ℚ), (h : ℚ))]),
           DrawOp.polyline (cpu_series_points w h cpu_hist),
           DrawOp.polyline (cpu_series_points w h mem_hist)]
        else [])
    ++ cpu_legend_ops ++ border_ops w h

/-- on_disk_io_chart_draw (lines 1205 to 1317): nothing when no disk is
selected or at nonpositive dimensions; the gathering message when no
matching I/O history exists; otherwise background, grid, each polyline only
when its history has more than one point, legend and border. -/
def on_disk_io_chart_draw (selected : Option String)
    (hist : List (String × (List ℚ × List ℚ))) (w h : ℤ) : List DrawOp :=
  match selected with
  | none => []
  | some sel =>
    if w ≤ 0 ∨ h ≤ 0 then []
    else
      match find_io_device hist sel with
      | none =>
        [DrawOp.fillRect 0 0 (w : ℚ) (h : ℚ),
         DrawOp.text ((w : ℚ) / 2 - 60) ((h : ℚ) / 2) "Gathering I/O data..."]
      | some dev =>
        let pair := (alist_find hist dev).getD ([], [])
        let maxval := io_scale_max pair.1 pair.2
        [DrawOp.fillRect 0 0 (w : ℚ) (h : ℚ)]
        ++ hgrid_ops w h
        ++ (if 1 < pair.1.length then
              [DrawOp.polyline (polyline_points w h pair.1 maxval)] else [])
        ++ (if 1 < pair.2.length then
              [DrawOp.polyline (polyline_points w h pair.2 maxval)] else [])
        ++ io_legend_ops ++ border_ops w h

/-- One successfully measured partition row of refresh_disk_data (lines 933
to 981): the partition fields joined with the usage result, exactly the
disk_info dict stored at line 960. -/
structure PartitionUsage where
  device : String
  mountpoint : String
  fstype : String
  total : Nat
  used : Nat
  free : Nat
  percent : ℚ
deriving DecidableEq

/-- The disk tab state touched by refresh_disk_data: self.disk_stats, a
dict that is only ever inserted into and never cleared (line 960), and
self.selected_disk (lines 990 to 998). -/
structure DiskState where
  disk_stats : List (String × PartitionUsage)
  selected_disk : Option String
deriving DecidableEq

/-- refresh_disk_data (lines 918 to 1005) restricted to disk_stats and
selected_disk: pseudo filesystems are skipped (line 936); every measured
partition is upserted into disk_stats; a set selection keeps its value even
when the device vanished from the enumeration (the elif of line 994 only
fires on an empty selection), and an empty selection becomes the first
enumerated device.  Partitions whose usage probe raises PermissionError are
absent from the input list. -/
def refresh_disk_data (parts : List PartitionUsage) (st : DiskState) :
    DiskState :=
  let kept := parts.filter fun p =>
    !(p.fstype == "squashfs" || p.fstype == "tmpfs" || p.fstype == "devtmpfs")
  let stats := kept.foldl (fun s p => alist_insert s p.device p) st.disk_stats
  let selected :=
    match st.selected_disk with
    | some s => some s
    | none => (kept.map fun p => p.device).head?
  ⟨stats, selected⟩

/-- The empty state branch of on_disk_pie_chart_draw (lines 1117 to 1138):
background plus the centered placeholder message, nothing at nonpositive
dimensions. -/
def pie_placeholder_ops (w h : ℤ) : List DrawOp :=
  if w ≤ 0 ∨ h ≤ 0 then []
  else
    [DrawOp.fillRect 0 0 (w : ℚ) (h : ℚ),
     DrawOp.text ((w : ℚ) / 2 - 50) ((h : ℚ) / 2) "Select a disk to view"]

/-- The pie chart legend (lines 1182 to 1201): swatches plus labels
embedding the formatted used and free percentages. -/
def pie_legend_ops (h : ℤ) (percent : ℚ) : List DrawOp :=
  [DrawOp.fillRect 20 ((h : ℚ) - 40) 15 15,
   DrawOp.textNum 40 ((h : ℚ) - 40 + 12) "Used" percent,
   DrawOp.fillRect 150 ((h : ℚ) - 40) 15 15,
   DrawOp.textNum 170 ((h : ℚ) - 40 + 12) "Free" (100 - percent)]

/-- on_disk_pie_chart_draw (lines 1115 to 1203): the placeholder when no
disk is selected or the selected disk has no recorded stats; otherwise
background, the used wedge from -pi/2 sweeping 2*pi*usedFraction, the free
wedge filling the remainder up to 3*pi/2, the outline circle and the
legend.  Angles are in units of pi radians. -/
def on_disk_pie_chart_draw (st : DiskState) (w h : ℤ) : List DrawOp :=
  match st.selected_disk with
  | none => pie_placeholder_ops w h
  | some s =>
    match alist_find st.disk_stats s with
    | none => pie_placeholder_ops w h
    | some info =>
      if w ≤ 0 ∨ h ≤ 0 then []
      else
        let used_fraction := info.percent / 100
        let cx := (w : ℚ) / 2
        let cy := (h : ℚ) / 2
        let radius := min (w : ℚ) (h : ℚ) / 2 - 20
        [DrawOp.fillRect 0 0 (w : ℚ) (h : ℚ),
         DrawOp.fillArc cx cy radius (-(1 : ℚ) / 2)
           (-(1 : ℚ) / 2 + 2 * used_fraction),
         DrawOp.fillArc cx cy radius (-(1 : ℚ) / 2 + 2 * used_fraction)
           (3 / 2),
         DrawOp.strokeArc cx cy radius 0 2]
        ++ pie_legend_ops h info.percent

theorem alist_fold_insert_find_of_absent (s : String) :
    ∀ (l : List PartitionUsage) (m : List (String × PartitionUsage)),
    (∀ p ∈ l, p.device ≠ s) →
    alist_find (l.foldl (fun acc p => alist_insert acc p.device p) m) s
      = alist_find m s := by
  intro l
  induction l with
  | nil => intro m _; rfl
  | cons p rest ih =>
    intro m habs
    have hfold : ((p :: rest).foldl (fun acc q => alist_insert acc q.device q) m)
        = rest.foldl (fun acc q => alist_insert acc q.device q)
            (alist_insert m p.device p) := rfl
    rw [hfold, ih _ (fun q hq => habs q (List.mem_cons_of_mem _ hq)),
      alist_find_insert_ne _ _ _ _ (habs p (List.mem_cons_self _ _))]

/-- The fully reduced pie chart draw when a selected disk with recorded
stats exists and the dimensions are positive. -/
theorem on_disk_pie_chart_draw_found (st : DiskState) (s : String)
    (info : PartitionUsage) (w h : ℤ)
    (hsel : st.selected_disk = some s)
    (hfound : alist_find st.disk_stats s = some info)
    (hw : 0 < w) (hh : 0 < h) :
    on_disk_pie_chart_draw st w h =
      [DrawOp.fillRect 0 0 (w : ℚ) (h : ℚ),
       DrawOp.fillArc ((w : ℚ) / 2) ((h : ℚ) / 2)
         (min (w : ℚ) (h : ℚ) / 2 - 20) (-(1 : ℚ) / 2)
         (-(1 : ℚ) / 2 + 2 * (info.percent / 100)),
       DrawOp.fillArc ((w : ℚ) / 2) ((h : ℚ) / 2)
         (min (w : ℚ) (h : ℚ) / 2 - 20)
         (-(1 : ℚ) / 2 + 2 * (info.percent / 100)) (3 / 2),
       DrawOp.strokeArc ((w : ℚ) / 2) ((h : ℚ) / 2)
         (min (w : ℚ) (h : ℚ) / 2 - 20) 0 2]
      ++ pie_legend_ops h info.percent := by
  unfold on_disk_pie_chart_draw
  rw [hsel]
  dsimp only
  rw [hfound]
  dsimp only
  rw [if_neg (by omega)]

/-- C5 as stated is false on the code: disk_stats is never pruned, so after
the selected disk /dev/sdb1 vanishes from the enumeration the selection is
kept and the pie chart still draws the cached stale wedges, not the no data
placeholder. -/
theorem C5_counterexample :
    (refresh_disk_data [⟨"/dev/sda1", "/", "ext4", 1000, 100, 900, 10⟩]
        (refresh_disk_data [⟨"/dev/sdb1", "/data", "ext4", 1000, 400, 600, 40⟩]
          ⟨[], none⟩)).selected_disk = some "/dev/sdb1" ∧
    "/dev/sdb1" ∉ ([⟨"/dev/sda1", "/", "ext4", 1000, 100, 900, 10⟩] :
        List PartitionUsage).map PartitionUsage.device ∧
    on_disk_pie_chart_draw
        (refresh_disk_data [⟨"/dev/sda1", "/", "ext4", 1000, 100, 900, 10⟩]
          (refresh_disk_data [⟨"/dev/sdb1", "/data", "ext4", 1000, 400, 600, 40⟩]
            ⟨[], none⟩)) 200 150
      ≠ pie_placeholder_ops 200 150 :=
  ⟨by decide, by decide,
    fun heq => absurd (congrArg List.length heq) (by decide)⟩

/-- C5 amended: a selection, once set, is preserved unchanged across a
refresh even when the selected disk is absent from the enumeration, and the
stats recorded for it earlier are retained, so the display keeps showing the
cached values; the pie chart renders the no data placeholder exactly when no
disk is selected or the selected disk was never recorded in disk_stats; no
exception escapes (every branch of the model is total). -/
theorem C5_amended (st : DiskState) (s : String) (parts : List PartitionUsage)
    (info : PartitionUsage)
    (hsel : st.selected_disk = some s)
    (hrec : alist_find st.disk_stats s = some info)
    (habsent : ∀ p ∈ parts, p.device ≠ s)
    (st2 : DiskState) (s2 : String) (w h : ℤ)
    (hsel2 : st2.selected_disk = some s2)
    (hnone : alist_find st2.disk_stats s2 = none)
    (st3 : DiskState) (hsel3 : st3.selected_disk = none) :
    (refresh_disk_data parts st).selected_disk = some s ∧
    alist_find (refresh_disk_data parts st).disk_stats s = some info ∧
    on_disk_pie_chart_draw st2 w h = pie_placeholder_ops w h ∧
    on_disk_pie_chart_draw st3 w h = pie_placeholder_ops w h := by
  refine ⟨?_, ?_, ?_, ?_⟩
  · unfold refresh_disk_data
    rw [hsel]
  · unfold refresh_disk_data
    dsimp only
    rw [alist_fold_insert_find_of_absent s _ st.disk_stats
      (fun p hp => habsent p (List.mem_of_mem_filter hp)), hrec]
  · unfold on_disk_pie_chart_draw
    rw [hsel2]
    dsimp only
    rw [hnone]
  · unfold on_disk_pie_chart_draw
    rw [hsel3]

theorem C5_witness :
    (DiskState.mk [("/dev/sdb1", ⟨"/dev/sdb1", "/data", "ext4", 1000, 400, 600, 40⟩)]
        (some "/dev/sdb1")).selected_disk = some "/dev/sdb1" ∧
    alist_find (DiskState.mk
        [("/dev/sdb1", ⟨"/dev/sdb1", "/data", "ext4", 1000, 400, 600, 40⟩)]
        (some "/dev/sdb1")).disk_stats "/dev/sdb1"
      = some ⟨"/dev/sdb1", "/data", "ext4", 1000, 400, 600, 40⟩ ∧
    (∀ p ∈ ([⟨"/dev/sda1", "/", "ext4", 1000, 100, 900, 10⟩] :
        List PartitionUsage), p.device ≠ "/dev/sdb1") ∧
    (DiskState.mk [] (some "gone")).selected_disk = some "gone" ∧
    alist_find (DiskState.mk [] (some "gone")).disk_stats "gone" = none ∧
    (DiskState.mk [] none).selected_disk = none ∧
    ((refresh_disk_data [⟨"/dev/sda1", "/", "ext4", 1000, 100, 900, 10⟩]
        (DiskState.mk
          [("/dev/sdb1", ⟨"/dev/sdb1", "/data", "ext4", 1000, 400, 600, 40⟩)]
          (some "/dev/sdb1"))).selected_disk = some "/dev/sdb1" ∧
      alist_find (refresh_disk_data
          [⟨"/dev/sda1", "/", "ext4", 1000, 100, 900, 10⟩]
          (DiskState.mk
            [("/dev/sdb1", ⟨"/dev/sdb1", "/data", "ext4", 1000, 400, 600, 40⟩)]
            (some "/dev/sdb1"))).disk_stats "/dev/sdb1"
        = some ⟨"/dev/sdb1", "/data", "ext4", 1000, 400, 600, 40⟩ ∧
      on_disk_pie_chart_draw (DiskState.mk [] (some "gone")) 200 150
        = pie_placeholder_ops 200 150 ∧
      on_disk_pie_chart_draw (DiskState.mk [] none) 200 150
        = pie_placeholder_ops 200 150) :=
  ⟨by decide, by decide, by decide, by decide, by decide, by decide,
    C5_amended
      (DiskState.mk
        [("/dev/sdb1", ⟨"/dev/sdb1", "/data", "ext4", 1000, 400, 600, 40⟩)]
        (some "/dev/sdb1"))
      "/dev/sdb1"
      [⟨"/dev/sda1", "/", "ext4", 1000, 100, 900, 10⟩]
      ⟨"/dev/sdb1", "/data", "ext4", 1000, 400, 600, 40⟩
      (by decide) (by decide) (by decide)
      (DiskState.mk [] (some "gone")) "gone" 200 150
      (by decide) (by decide)
      (DiskState.mk [] none) (by decide)⟩

/-- C8: the used wedge starts at -pi/2 (the top, -90 degrees) and sweeps
clockwise by usedFraction of the full turn, the free wedge covers exactly
the remainder.  Angles are recorded in units of pi radians, so a difference
d corresponds to d * 180 degrees; the conjuncts convert the sweeps to
degrees and check the u = 1/4 instance sweeps exactly 90 degrees. -/
theorem C8_pie_wedge_angles (st : DiskState) (s : String)
    (info : PartitionUsage) (w h : ℤ)
    (hsel : st.selected_disk = some s)
    (hfound : alist_find st.disk_stats s = some info)
    (hw : 0 < w) (hh : 0 < h)
    (hp0 : 0 ≤ info.percent) (hp1 : info.percent ≤ 100) :
    DrawOp.fillArc ((w : ℚ) / 2) ((h : ℚ) / 2) (min (w : ℚ) (h : ℚ) / 2 - 20)
        (-(1 : ℚ) / 2) (-(1 : ℚ) / 2 + 2 * (info.percent / 100))
      ∈ on_disk_pie_chart_draw st w h ∧
    DrawOp.fillArc ((w : ℚ) / 2) ((h : ℚ) / 2) (min (w : ℚ) (h : ℚ) / 2 - 20)
        (-(1 : ℚ) / 2 + 2 * (info.percent / 100)) (3 / 2)
      ∈ on_disk_pie_chart_draw st w h ∧
    ((-(1 : ℚ) / 2 + 2 * (info.percent / 100)) - (-(1 : ℚ) / 2)) * 180
      = (info.percent / 100) * 360 ∧
    ((3 : ℚ) / 2 - (-(1 : ℚ) / 2 + 2 * (info.percent / 100))) * 180
      = (1 - info.percent / 100) * 360 ∧
    (info.percent = 25 →
      ((-(1 : ℚ) / 2 + 2 * (info.percent / 100)) - (-(1 : ℚ) / 2)) * 180
        = 90) := by
  have hops := on_disk_pie_chart_draw_found st s info w h hsel hfound hw hh
  refine ⟨?_, ?_, by ring, by ring, ?_⟩
  · rw [hops]
    simp
  · rw [hops]
    simp
  · intro h25
    rw [h25]
    norm_num

theorem C8_witness :
    (DiskState.mk [("sda", ⟨"sda", "/", "ext4", 1000, 250, 750, 25⟩)]
        (some "sda")).selected_disk = some "sda" ∧
    alist_find (DiskState.mk
        [("sda", ⟨"sda", "/", "ext4", 1000, 250, 750, 25⟩)]
        (some "sda")).disk_stats "sda"
      = some ⟨"sda", "/", "ext4", 1000, 250, 750, 25⟩ ∧
    (0 : ℤ) < 200 ∧ (0 : ℤ) < 150 ∧
    (0 : ℚ) ≤ (25 : ℚ) ∧ (25 : ℚ) ≤ 100 ∧
    (DrawOp.fillArc (((200 : ℤ) : ℚ) / 2) (((150 : ℤ) : ℚ) / 2)
        (min ((200 : ℤ) : ℚ) ((150 : ℤ) : ℚ) / 2 - 20) (-(1 : ℚ) / 2)
        (-(1 : ℚ) / 2 + 2 * ((25 : ℚ) / 100))
      ∈ on_disk_pie_chart_draw
          (DiskState.mk [("sda", ⟨"sda", "/", "ext4", 1000, 250, 750, 25⟩)]
            (some "sda")) 200 150 ∧
    DrawOp.fillArc (((200 : ℤ) : ℚ) / 2) (((150 : ℤ) : ℚ) / 2)
        (min ((200 : ℤ) : ℚ) ((150 : ℤ) : ℚ) / 2 - 20)
        (-(1 : ℚ) / 2 + 2 * ((25 : ℚ) / 100)) (3 / 2)
      ∈ on_disk_pie_chart_draw
          (DiskState.mk [("sda", ⟨"sda", "/", "ext4", 1000, 250, 750, 25⟩)]
            (some "sda")) 200 150 ∧
    ((-(1 : ℚ) / 2 + 2 * ((25 : ℚ) / 100)) - (-(1 : ℚ) / 2)) * 180
      = ((25 : ℚ) / 100) * 360 ∧
    ((3 : ℚ) / 2 - (-(1 : ℚ) / 2 + 2 * ((25 : ℚ) / 100))) * 180
      = (1 - (25 : ℚ) / 100) * 360 ∧
    ((25 : ℚ) = 25 →
      ((-(1 : ℚ) / 2 + 2 * ((25 : ℚ) / 100)) - (-(1 : ℚ) / 2)) * 180
        = 90)) :=
  ⟨by decide, by decide, by decide, by decide, by norm_num, by norm_num,
    C8_pie_wedge_angles
      (DiskState.mk [("sda", ⟨"sda", "/", "ext4", 1000, 250, 750, 25⟩)]
        (some "sda"))
      "sda" ⟨"sda", "/", "ext4", 1000, 250, 750, 25⟩ 200 150
      (by decide) (by decide) (by decide) (by decide)
      (by norm_num) (by norm_num)⟩

/-- C6: sample index i of a series of N points maps to
(i * (width / (N - 1)), height - value / scaleMax * height * 0.9), oldest to
newest left to right: stated for the I/O chart vertices (spacing from the
series length), for the CPU chart vertices (spacing from the fixed 60 point
capacity, equal to N - 1 under the always full invariant), and for the two
point history (0, 100) at scaleMax 100, whose endpoints land at y = H and
y = H / 10, also as an op of the full I/O chart draw. -/
theorem C6_chart_point_mapping (w h : ℤ) (hist : List ℚ) (maxval : ℚ)
    (i : ℕ) (hlen : 2 ≤ hist.length) (hi : i < hist.length)
    (w2 h2 : ℤ) (cpu : List ℚ) (i2 : ℕ)
    (hcpu : cpu.length = 60) (hi2 : i2 < 60)
    (w3 h3 : ℤ) (hw3 : 0 < w3) (hh3 : 0 < h3) :
    (polyline_points w h hist maxval)[i]?
      = some ((i : ℚ) * ((w : ℚ) / ((hist.length - 1 : ℕ) : ℚ)),
              (h : ℚ) - hist.getD i 0 / maxval * (h : ℚ) * (9 / 10)) ∧
    (cpu_series_points w2 h2 cpu)[i2]?
      = some ((i2 : ℚ) * ((w2 : ℚ) / ((cpu.length - 1 : ℕ) : ℚ)),
              (h2 : ℚ) - cpu.getD i2 0 / 100 * (h2 : ℚ) * (9 / 10)) ∧
    polyline_points w3 h3 [0, 100] 100
      = [(0, (h3 : ℚ)), ((w3 : ℚ), (h3 : ℚ) / 10)] ∧
    io_scale_max [0, 100] [0, 0] = 100 ∧
    DrawOp.polyline [(0, (h3 : ℚ)), ((w3 : ℚ), (h3 : ℚ) / 10)]
      ∈ on_disk_io_chart_draw (some "sda") [("sda", ([0, 100], [0, 0]))]
          w3 h3 := by
  have hmax2 : io_scale_max [0, 100] [0, 0] = 100 := by
    simp [io_scale_max, py_list_max]
  have hpts : polyline_points w3 h3 [0, 100] 100
      = [(0, (h3 : ℚ)), ((w3 : ℚ), (h3 : ℚ) / 10)] := by
    simp [polyline_points, List.range_succ]
    ring
  refine ⟨?_, ?_, hpts, hmax2, ?_⟩
  · have hm : max 1 (hist.length - 1) = hist.length - 1 := by omega
    rw [polyline_points, List.getElem?_map, List.getElem?_range hi, hm]
    rfl
  · have hm : max 1 (cpu_history_points - 1) = 59 := rfl
    have h59 : cpu.length - 1 = 59 := by omega
    rw [cpu_series_points, List.getElem?_map,
      List.getElem?_range (by omega : i2 < cpu.length), cpu_point_spacing,
      hm, h59]
    rfl
  · have hfind : find_io_device
        ([("sda", (([0, 100] : List ℚ), ([0, 0] : List ℚ)))]) "sda"
        = some "sda" := by decide
    have hpair : alist_find
        ([("sda", (([0, 100] : List ℚ), ([0, 0] : List ℚ)))]) "sda"
        = some ([0, 100], [0, 0]) := by decide
    unfold on_disk_io_chart_draw
    dsimp only
    rw [if_neg (show ¬(w3 ≤ 0 ∨ h3 ≤ 0) by omega), hfind]
    dsimp only
    rw [hpair]
    simp [hmax2, hpts]

theorem C6_witness :
    (2 : ℕ) ≤ ([5, 6, 7] : List ℚ).length ∧
    (1 : ℕ) < ([5, 6, 7] : List ℚ).length ∧
    cpu_history_init.length = 60 ∧ (0 : ℕ) < 60 ∧
    (0 : ℤ) < 300 ∧ (0 : ℤ) < 120 ∧
    ((polyline_points 200 100 [5, 6, 7] 3)[1]?
      = some (((1 : ℕ) : ℚ) * (((200 : ℤ) : ℚ)
            / ((([5, 6, 7] : List ℚ).length - 1 : ℕ) : ℚ)),
          ((100 : ℤ) : ℚ) - ([5, 6, 7] : List ℚ).getD 1 0 / 3
            * ((100 : ℤ) : ℚ) * (9 / 10)) ∧
    (cpu_series_points 200 100 cpu_history_init)[0]?
      = some (((0 : ℕ) : ℚ) * (((200 : ℤ) : ℚ)
            / ((cpu_history_init.length - 1 : ℕ) : ℚ)),
          ((100 : ℤ) : ℚ) - cpu_history_init.getD 0 0 / 100
            * ((100 : ℤ) : ℚ) * (9 / 10)) ∧
    polyline_points 300 120 [0, 100] 100
      = [(0, ((120 : ℤ) : ℚ)), (((300 : ℤ) : ℚ), ((120 : ℤ) : ℚ) / 10)] ∧
    io_scale_max [0, 100] [0, 0] = 100 ∧
    DrawOp.polyline [(0, ((120 : ℤ) : ℚ)), (((300 : ℤ) : ℚ),
        ((120 : ℤ) : ℚ) / 10)]
      ∈ on_disk_io_chart_draw (some "sda") [("sda", ([0, 100], [0, 0]))]
          300 120) :=
  ⟨by decide, by decide, by decide, by decide, by decide, by decide,
    C6_chart_point_mapping 200 100 [5, 6, 7] 3 1 (by decide) (by decide)
      200 100 cpu_history_init 0 (by decide) (by decide)
      300 120 (by decide) (by decide)⟩

/-- C7: at zero or negative plot dimensions every chart draw handler emits
nothing at all; with a history of fewer than two points the time series
handlers emit no polyline and no filled area but still emit the background,
grid, axes, legend and border. -/
theorem C7_draw_edge_cases
    (w1 h1 : ℤ) (cpu1 mem1 : List ℚ) (sel1 : Option String)
    (hist1 : List (String × (List ℚ × List ℚ))) (st1 : DiskState)
    (hdim : w1 ≤ 0 ∨ h1 ≤ 0)
    (w2 h2 : ℤ) (cpu2 mem2 : List ℚ)
    (hw2 : 0 < w2) (hh2 : 0 < h2) (hshort : cpu2.length < 2)
    (sel3 dev3 : String) (hist3 : List (String × (List ℚ × List ℚ)))
    (r3 wr3 : List ℚ)
    (hfind3 : find_io_device hist3 sel3 = some dev3)
    (hpair3 : alist_find hist3 dev3 = some (r3, wr3))
    (hr3 : r3.length < 2) (hwr3 : wr3.length < 2) :
    on_cpu_chart_draw cpu1 mem1 w1 h1 = [] ∧
    on_disk_io_chart_draw sel1 hist1 w1 h1 = [] ∧
    on_disk_pie_chart_draw st1 w1 h1 = [] ∧
    on_cpu_chart_draw cpu2 mem2 w2 h2
      = [DrawOp.fillRect 0 0 (w2 : ℚ) (h2 : ℚ)] ++ hgrid_ops w2 h2
        ++ cpu_vgrid_ops w2 h2 ++ cpu_axes_ops w2 h2
        ++ cpu_legend_ops ++ border_ops w2 h2 ∧
    (∀ pts, DrawOp.polyline pts ∉ on_cpu_chart_draw cpu2 mem2 w2 h2 ∧
            DrawOp.fillPath pts ∉ on_cpu_chart_draw cpu2 mem2 w2 h2) ∧
    on_disk_io_chart_draw (some sel3) hist3 w2 h2
      = [DrawOp.fillRect 0 0 (w2 : ℚ) (h2 : ℚ)] ++ hgrid_ops w2 h2
        ++ io_legend_ops ++ border_ops w2 h2 ∧
    (∀ pts, DrawOp.polyline pts ∉ on_disk_io_chart_draw (some sel3) hist3
        w2 h2 ∧
      DrawOp.fillPath pts ∉ on_disk_io_chart_draw (some sel3) hist3
        w2 h2) := by
  have hpos : ¬ (w2 ≤ 0 ∨ h2 ≤ 0) := by omega
  have hcpu_eq : on_cpu_chart_draw cpu2 mem2 w2 h2
      = [DrawOp.fillRect 0 0 (w2 : ℚ) (h2 : ℚ)] ++ hgrid_ops w2 h2
        ++ cpu_vgrid_ops w2 h2 ++ cpu_axes_ops w2 h2
        ++ cpu_legend_ops ++ border_ops w2 h2 := by
    unfold on_cpu_chart_draw
    rw [if_neg hpos, if_neg (by omega)]
    simp
  have hio_eq : on_disk_io_chart_draw (some sel3) hist3 w2 h2
      = [DrawOp.fillRect 0 0 (w2 : ℚ) (h2 : ℚ)] ++ hgrid_ops w2 h2
        ++ io_legend_ops ++ border_ops w2 h2 := by
    unfold on_disk_io_chart_draw
    dsimp only
    rw [if_neg hpos, hfind3]
    dsimp only
    rw [hpair3]
    rw [Option.getD_some]
    dsimp only
    rw [if_neg (show ¬ (1 < r3.length) by omega),
      if_neg (show ¬ (1 < wr3.length) by omega)]
    simp
  refine ⟨?_, ?_, ?_, hcpu_eq, ?_, hio_eq, ?_⟩
  · unfold on_cpu_chart_draw
    rw [if_pos hdim]
  · unfold on_disk_io_chart_draw
    cases sel1 with
    | none => rfl
    | some s =>
      dsimp only
      rw [if_pos hdim]
  · unfold on_disk_pie_chart_draw pie_placeholder_ops
    cases hs : st1.selected_disk with
    | none =>
      dsimp only
      rw [if_pos hdim]
    | some s =>
      dsimp only
      cases hf : alist_find st1.disk_stats s with
      | none =>
        dsimp only
        rw [if_pos hdim]
      | some info =>
        dsimp only
        rw [if_pos hdim]
  · intro pts
    rw [hcpu_eq]
    constructor <;>
      simp [hgrid_ops, cpu_vgrid_ops, cpu_axes_ops, cpu_legend_ops,
        border_ops]
  · intro pts
    rw [hio_eq]
    constructor <;>
      simp [hgrid_ops, io_legend_ops, border_ops]

theorem C7_witness :
    ((0 : ℤ) ≤ 0 ∨ (10 : ℤ) ≤ 0) ∧
    (0 : ℤ) < 100 ∧ (0 : ℤ) < 50 ∧
    (([] : List ℚ).length < 2) ∧
    find_io_device [("sda", (([] : List ℚ), ([] : List ℚ)))] "sda"
      = some "sda" ∧
    alist_find [("sda", (([] : List ℚ), ([] : List ℚ)))] "sda"
      = some ([], []) ∧
    (([] : List ℚ).length < 2) ∧
    (on_cpu_chart_draw [] [] 0 10 = [] ∧
      on_disk_io_chart_draw (some "x") [] 0 10 = [] ∧
      on_disk_pie_chart_draw (DiskState.mk [] none) 0 10 = [] ∧
      on_cpu_chart_draw [] [] 100 50
        = [DrawOp.fillRect 0 0 ((100 : ℤ) : ℚ) ((50 : ℤ) : ℚ)]
          ++ hgrid_ops 100 50 ++ cpu_vgrid_ops 100 50 ++ cpu_axes_ops 100 50
          ++ cpu_legend_ops ++ border_ops 100 50 ∧
      (∀ pts, DrawOp.polyline pts ∉ on_cpu_chart_draw [] [] 100 50 ∧
              DrawOp.fillPath pts ∉ on_cpu_chart_draw [] [] 100 50) ∧
      on_disk_io_chart_draw (some "sda")
          [("sda", (([] : List ℚ), ([] : List ℚ)))] 100 50
        = [DrawOp.fillRect 0 0 ((100 : ℤ) : ℚ) ((50 : ℤ) : ℚ)]
          ++ hgrid_ops 100 50 ++ io_legend_ops ++ border_ops 100 50 ∧
      (∀ pts, DrawOp.polyline pts ∉ on_disk_io_chart_draw (some "sda")
            [("sda", (([] : List ℚ), ([] : List ℚ)))] 100 50 ∧
        DrawOp.fillPath pts ∉ on_disk_io_chart_draw (some "sda")
            [("sda", (([] : List ℚ), ([] : List ℚ)))] 100 50)) :=
  ⟨Or.inl (by decide), by decide, by decide, by decide, by decide, by decide,
    by decide,
    C7_draw_edge_cases 0 10 [] [] (some "x") [] (DiskState.mk [] none)
      (Or.inl (by decide)) 100 50 [] []
      (by decide) (by decide) (by decide)
      "sda" "sda" [("sda", (([] : List ℚ), ([] : List ℚ)))] [] []
      (by decide) (by decide) (by decide) (by decide)⟩

end Taskman
